import Mathlib

/-!
Shallow embedding of the container-CI harness (`ci/ci.py` plus the `run`
driver referenced by `test_build.py`).

The external world (container engine, log stream, package manager, browser
helper) is modelled by per-tag oracle structures describing the outcome of
each external call; the orchestrator state machine `CI.container_test`, its
finalizer `_endtest`, the visual-verification step `CI.take_screenshot`, the
environment parsing helpers `CI.convert_env` / `CI.check_env`, and the
`requests` adapter-mounting semantics used by `take_screenshot` are
translated directly from the source.
-/

/-- One entry of `self.tag_report_tests`: the source appends three-element
lists `[check name, outcome, detail]` (detail is a string or an error value,
modelled as the error text). -/
structure TestEntry where
  check : String
  outcome : String
  detail : String
deriving Repr, DecidableEq

/-- One element of `self.report_containers` as appended by `_endtest`
(ci.py lines 92-98): keys `tag`, `logs`, `sysinfo` (the packages value),
`build_version`, `tag_tests`. -/
structure ContainerReport where
  tag : String
  logs : String
  sysinfo : String
  build_version : String
  tag_tests : List TestEntry
deriving Repr, DecidableEq

/-- The mutable instance state of the `CI` object that the per-tag test
reads and writes, plus counters observing the external calls the code makes
(container starts/removes for subject and helper, `container.attrs` build
label reads, `exec_run` package-command executions). -/
structure CIState where
  tag_report_tests : List TestEntry
  report_containers : List ContainerReport
  report_status : String
  subjectStarts : Nat
  subjectRemoves : Nat
  helperStarts : Nat
  helperRemoves : Nat
  attrCalls : Nat
  execCalls : Nat
deriving Repr, DecidableEq

/-- State after `CI.__init__`: empty accumulators and `report_status = PASS`
(ci.py lines 27-29). -/
def initState : CIState :=
  { tag_report_tests := []
    report_containers := []
    report_status := "PASS"
    subjectStarts := 0
    subjectRemoves := 0
    helperStarts := 0
    helperRemoves := 0
    attrCalls := 0
    execCalls := 0 }

/-- Does the character list `hay` begin with `needle`? (Substring matching
helper for the Python `in` operator.) -/
def charsLeadWith : List Char → List Char → Bool
  | [], _ => true
  | _ :: _, [] => false
  | n :: ns, h :: hs => n == h && charsLeadWith ns hs

/-- Does `needle` occur contiguously inside `hay`? -/
def charsHave (needle : List Char) : List Char → Bool
  | [] => charsLeadWith needle []
  | h :: hs => charsLeadWith needle (h :: hs) || charsHave needle hs

/-- The Python substring test `needle in hay` for strings. -/
def strContains (hay needle : String) : Bool :=
  charsHave needle.data hay.data

/-- First readiness marker polled for in the log blob (ci.py line 112). -/
def marker1 : String := "[services.d] done."

/-- Second readiness marker polled for in the log blob (ci.py line 112). -/
def marker2 : String := "[ls.io-init] done."

/-- The readiness test applied to one fetched log blob (ci.py line 112):
`if marker1 in logblob or marker2 in logblob`. -/
def logReady (logblob : String) : Bool :=
  strContains logblob marker1 || strContains logblob marker2

/-- Outcome of one iteration of the log-watching loop: `container.logs()`
decoded successfully to a blob, or raised. -/
inductive PollStep where
  | ok (logblob : String)
  | err (msg : String)
deriving Repr, DecidableEq

/-- Result of the bounded log-watching loop (ci.py lines 107-121). -/
inductive LoopOut where
  | found
  | deadline
  | pollErr (msg : String)
deriving Repr, DecidableEq

/-- The `while time.time() < t_end` loop of ci.py lines 109-121 over the
finite sequence of poll iterations that fit in the 5-minute budget: a poll
exception exits via the except branch, a blob holding a marker sets
`logsfound` and breaks, exhausting the budget leaves `logsfound = False`. -/
def watchLogs : List PollStep → LoopOut
  | [] => .deadline
  | .err m :: _ => .pollErr m
  | .ok blob :: rest => if logReady blob then .found else watchLogs rest

/-- Package-inventory command selection by base distro family (ci.py lines
149-156). No `else` branch exists: an unrecognized family leaves the local
variable `command` unbound, so the later `exec_run(command)` raises
`NameError` inside the try block. -/
def pickCommand (base : String) : Option String :=
  if base = "alpine" then some "apk info -v"
  else if base = "debian" ∨ base = "ubuntu" then some "apt list"
  else if base = "fedora" then some "rpm -qa"
  else if base = "arch" then some "pacman -Q"
  else none

/-- Append one entry to `self.tag_report_tests`. -/
def addTest (s : CIState) (e : TestEntry) : CIState :=
  { s with tag_report_tests := s.tag_report_tests ++ [e] }

/-- `self.report_status = FAIL`. -/
def setFail (s : CIState) : CIState :=
  { s with report_status := "FAIL" }

/-- Oracle for one `take_screenshot` invocation. `subjPreOk`: the subject
`reload`/attrs IP lookup (lines 296-298) succeeds; `launchOk`: the tester
container `containers.run` (line 300) succeeds; `preOk`: the sleep /
`reload` / tester attrs IP lookup before the try block (lines 305-308)
succeeds; `branch`: which arm of the try/except of lines 309-342 runs. -/
inductive ShotBranch where
  | pass
  | connError (msg : String)
  | timeoutErr (msg : String)
  | unknown (msg : String)
deriving Repr, DecidableEq

structure ScreenshotWorld where
  subjPreOk : Bool
  launchOk : Bool
  preOk : Bool
  branch : ShotBranch
deriving Repr, DecidableEq

/-- The row each arm of the try/except of ci.py lines 309-342 appends:
success appends a PASS, and each except arm appends its FAIL
classification with the caught error. -/
def shotEntry : ShotBranch → TestEntry
  | .pass => ⟨"Get screenshot", "PASS", "-"⟩
  | .connError m => ⟨"Get screenshot", "FAIL CONNECTION ERROR", m⟩
  | .timeoutErr m => ⟨"Get screenshot", "FAIL TIMEOUT", m⟩
  | .unknown m => ⟨"Get screenshot", "FAIL UNKNOWN", m⟩

/-- `CI.take_screenshot` (ci.py lines 293-343). Returns `(raised, state)`:
`raised = true` means an exception escaped the method (possible only from
the code before the try block — every exception inside the try is caught by
the three except arms, after which line 343 force-removes the tester
container unconditionally). -/
def take_screenshot (w : ScreenshotWorld) (s : CIState) : Bool × CIState :=
  if w.subjPreOk = false then (true, s)
  else if w.launchOk = false then (true, s)
  else
    let s := { s with helperStarts := s.helperStarts + 1 }
    if w.preOk = false then (true, s)
    else
      let s := addTest s (shotEntry w.branch)
      (false, { s with helperRemoves := s.helperRemoves + 1 })

deriving instance DecidableEq for Except

/-- Oracle for one `container_test` invocation: `startOk` is whether the
subject `containers.run` (line 103) succeeds; `polls` the successive poll
iterations of the readiness loop; `buildLabel` the
`attrs[Config][Labels][build_version]` lookup result (line 124), `Except.error`
meaning it raised; `execResult` the `exec_run` + decode result (lines
158-159); `finalLogs` the blob `_endtest` captures (line 89); `shot` the
screenshot oracle. -/
structure TagWorld where
  startOk : Bool
  polls : List PollStep
  buildLabel : Except String String
  execResult : Except String String
  finalLogs : String
  shot : ScreenshotWorld
deriving Repr, DecidableEq

/-- The nested `_endtest` closure (ci.py lines 87-100): capture final logs,
force-remove the subject container, append one ContainerReport, reset the
per-tag accumulator. -/
def endtest (s : CIState) (tag logblob build_version packages : String) : CIState :=
  { s with
      subjectRemoves := s.subjectRemoves + 1
      report_containers := s.report_containers ++
        [{ tag := tag
           logs := logblob
           sysinfo := packages
           build_version := build_version
           tag_tests := s.tag_report_tests }]
      tag_report_tests := [] }

/-- Package-dump step onward (ci.py lines 147-178): command selection,
`exec_run` inside try/except, the settle sleep, the optional screenshot
step, and the final `_endtest`. Returns `(raised, state)`. -/
def packageAndOn (w : TagWorld) (tag base flag bv : String) (s : CIState) :
    Bool × CIState :=
  match pickCommand base with
  | none =>
      -- NameError: the local variable `command` was never assigned; caught
      -- by the except arm of lines 162-169.
      let s := setFail (addTest s ⟨"Dump package info", "FAIL", "NameError: name command is not defined"⟩)
      (false, endtest s tag w.finalLogs bv "ERROR")
  | some _ =>
      let s := { s with execCalls := s.execCalls + 1 }
      match w.execResult with
      | .error e =>
          let s := setFail (addTest s ⟨"Dump package info", "FAIL", e⟩)
          (false, endtest s tag w.finalLogs bv "ERROR")
      | .ok pk =>
          let s := addTest s ⟨"Dump package info", "PASS", "-"⟩
          if flag = "true" then
            match take_screenshot w.shot s with
            | (true, s) => (true, s)
            | (false, s) => (false, endtest s tag w.finalLogs bv pk)
          else (false, endtest s tag w.finalLogs bv pk)

/-- Build-version step onward (ci.py lines 122-146): the attrs label lookup
inside try/except, then the recorded verdict of the readiness loop
(`logsfound`), then the package step. -/
def versionAndOn (w : TagWorld) (tag base flag : String) (logsfound : Bool)
    (s : CIState) : Bool × CIState :=
  let s := { s with attrCalls := s.attrCalls + 1 }
  match w.buildLabel with
  | .error e =>
      let s := setFail (addTest s ⟨"Get build version", "FAIL", e⟩)
      (false, endtest s tag w.finalLogs "ERROR" "ERROR")
  | .ok bv =>
      let s := addTest s ⟨"Get build version", "PASS", "-"⟩
      if logsfound then
        let s := addTest s ⟨"Container startup", "PASS", "-"⟩
        packageAndOn w tag base flag bv s
      else
        let s := setFail (addTest s ⟨"Container startup", "FAIL", "INIT NOT FINISHED"⟩)
        (false, endtest s tag w.finalLogs bv "ERROR")

/-- `CI.container_test` (ci.py lines 84-178). The subject `containers.run`
call on line 103 is not inside any try block, so its failure escapes the
method (`raised = true`) with the state untouched. -/
def container_test (w : TagWorld) (tag base flag : String) (s : CIState) :
    Bool × CIState :=
  if w.startOk = false then (true, s)
  else
    let s := { s with subjectStarts := s.subjectStarts + 1 }
    match watchLogs w.polls with
    | .pollErr _ =>
        let s := setFail (addTest s ⟨"Container startup", "FAIL", "INIT NOT FINISHED"⟩)
        (false, endtest s tag w.finalLogs "ERROR" "ERROR")
    | .found => versionAndOn w tag base flag true s
    | .deadline => versionAndOn w tag base flag false s

/-- Modelled from the spec: the `CI.run` driver invoked by
`test_build.py` (`ci.run(ci.tags)`) is absent from `ci/ci.py`; per the spec
the orchestrator "is invoked once per tag in a list" and processes the
configured tag list "one at a time in order", so `run` folds
`container_test` over the tag list, an escaped exception aborting the
remaining tags. -/
def run (base flag : String) (worlds : List (String × TagWorld)) (s : CIState) :
    Bool × CIState :=
  match worlds with
  | [] => (false, s)
  | (tag, w) :: rest =>
      match container_test w tag base flag s with
      | (true, s) => (true, s)
      | (false, s) => run base flag rest s

/-- Python `str.split(sep)` for a single-character separator: always returns
at least one (possibly empty) segment. -/
def splitChar (sep : Char) : List Char → List (List Char)
  | [] => [[]]
  | c :: cs =>
      if c == sep then [] :: splitChar sep cs
      else
        match splitChar sep cs with
        | [] => [[c]]
        | x :: xs => (c :: x) :: xs

/-- One `varpair.split('=')` followed by `env_dict[var[0]] = var[1]`
(ci.py lines 55-56 and 58-59): a segment with no `=` has no `var[1]` and
raises IndexError (`none`); otherwise the key is the text before the first
`=` and the value the text between the first and second `=`. -/
def parseVar (vp : List Char) : Option (String × String) :=
  match splitChar '=' vp with
  | [] => none
  | [_] => none
  | k :: v :: _ => some (⟨k⟩, ⟨v⟩)

/-- Python dict assignment `env_dict[k] = v` on an insertion-ordered dict. -/
def dictAssign (d : List (String × String)) (k v : String) :
    List (String × String) :=
  if d.any (fun p => p.1 == k) then
    d.map (fun p => if p.1 == k then (k, v) else p)
  else d ++ [(k, v)]

/-- `CI.convert_env` (ci.py lines 48-60): empty input gives an empty dict;
an input containing a pipe is split on pipes and each segment parsed as
`KEY=VALUE`; otherwise the whole input is parsed as one pair. `none` models
the IndexError raised for a segment without `=`. -/
def convert_env (envs : String) : Option (List (String × String)) :=
  if envs.data.isEmpty then some []
  else if envs.data.contains '|' then
    (splitChar '|' envs.data).foldlM
      (fun d vp => (parseVar vp).map (fun kv => dictAssign d kv.1 kv.2)) []
  else (parseVar envs.data).map (fun kv => dictAssign [] kv.1 kv.2)

/-- The configuration fields `check_env` assigns (ci.py lines 66-77). -/
structure Config where
  image : String
  base : String
  s3_key : String
  s3_secret : String
  meta_tag : String
  tags : List String
deriving Repr, DecidableEq

/-- `os.environ[k]` over a process environment modelled as an association
list: `none` is the KeyError. -/
def lookupEnv (env : List (String × String)) (k : String) : Option String :=
  (env.find? (fun p => p.1 == k)).map (fun p => p.2)

/-- `CI.check_env` (ci.py lines 63-81): reads the six required variables in
order, a missing one raising (here `Except.error` with the key name); the
tag list is the pipe-split of `TAGS`. No value validation is performed. -/
def check_env (env : List (String × String)) : Except String Config :=
  match lookupEnv env "IMAGE" with
  | none => .error "IMAGE"
  | some image =>
  match lookupEnv env "BASE" with
  | none => .error "BASE"
  | some base =>
  match lookupEnv env "ACCESS_KEY" with
  | none => .error "ACCESS_KEY"
  | some s3_key =>
  match lookupEnv env "SECRET_KEY" with
  | none => .error "SECRET_KEY"
  | some s3_secret =>
  match lookupEnv env "META_TAG" with
  | none => .error "META_TAG"
  | some meta_tag =>
  match lookupEnv env "TAGS" with
  | none => .error "TAGS"
  | some tags_env =>
      let tags :=
        if tags_env.data.contains '|' then
          (splitChar '|' tags_env.data).map (fun l => (⟨l⟩ : String))
        else [tags_env]
      .ok { image := image, base := base, s3_key := s3_key,
            s3_secret := s3_secret, meta_tag := meta_tag, tags := tags }

/-- Retry configuration carried by a mounted `requests` transport adapter:
the session default adapters perform no retries; `take_screenshot` builds
one with `Retry(total=10, backoff_factor=2, status_forcelist=[502, 503, 504])`
(ci.py lines 319-320). -/
inductive AdapterRetry where
  | noRetry
  | retryPolicy (total : Nat) (backoff : Nat) (forcelist : List Nat)
deriving Repr, DecidableEq

/-- A fresh `requests.Session` mounts default (no-retry) adapters for the
URL path beginnings `https://` and `http://`, kept ordered by key length
descending. -/
def defaultAdapters : List (String × AdapterRetry) :=
  [("https://", .noRetry), ("http://", .noRetry)]

/-- `requests.Session.mount(key, adapter)`: store the adapter under `key`
and re-order the registry so that longer keys come first (requests moves
every key shorter than the new one behind it, preserving relative order). -/
def mountAdapter (ads : List (String × AdapterRetry)) (key : String)
    (ad : AdapterRetry) : List (String × AdapterRetry) :=
  let ads :=
    if ads.any (fun p => p.1 == key) then
      ads.map (fun p => if p.1 == key then (key, ad) else p)
    else ads ++ [(key, ad)]
  ads.filter (fun p => ¬ p.1.length < key.length) ++
    ads.filter (fun p => p.1.length < key.length)

/-- Case-insensitive `url.lower().startswith(key.lower())` as used by
`requests.Session.get_adapter`. -/
def urlMatchesKey (url key : String) : Bool :=
  charsLeadWith (key.data.map Char.toLower) (url.data.map Char.toLower)

/-- `requests.Session.get_adapter(url)`: the first registry entry (longest
keys first) whose key the lowercased URL starts with. -/
def getAdapter (ads : List (String × AdapterRetry)) (url : String) :
    Option AdapterRetry :=
  ((ads.find? (fun p => urlMatchesKey url p.1)).map (fun p => p.2))

/-- The retry policy `take_screenshot` constructs (ci.py lines 319-320). -/
def retryConfigured : AdapterRetry := .retryPolicy 10 2 [502, 503, 504]

/-- The adapter registry of the session built by `take_screenshot`
(ci.py lines 318-321): a fresh session with the retry adapter mounted at
the bare scheme string `proto` (`http` or `https`, no `://`). -/
def screenshotSession (proto : String) : List (String × AdapterRetry) :=
  mountAdapter defaultAdapters proto retryConfigured

/-- The helper control endpoint probed by `session.get` and the webdriver
(ci.py line 308): `http://` + tester IP + `:3000`. -/
def testerEndpointOf (ip : String) : String := "http://" ++ ip ++ ":3000"

/-- All TagTestResult entries currently held by the run: those inside every
produced ContainerReport plus the in-flight per-tag accumulator. -/
def allEntries (s : CIState) : List TestEntry :=
  (s.report_containers.map ContainerReport.tag_tests).flatten ++ s.tag_report_tests

/-- A non-PASS entry recorded outside the screenshot step: exactly the
entries whose append site also sets `report_status = FAIL` in the source. -/
def coreBad (e : TestEntry) : Bool :=
  e.outcome != "PASS" && e.check != "Get screenshot"

/-- The run-wide status discipline the code actually maintains:
`report_status = FAIL` exactly when some recorded entry is a non-PASS entry
of a non-screenshot check. -/
def statusInv (s : CIState) : Prop :=
  s.report_status = "FAIL" ↔ (allEntries s).any coreBad = true

/-- Screenshot oracle: helper reachable path fails with a connection error
inside the try block (the `session.get` never reaches the helper). -/
def shotConnErr : ScreenshotWorld :=
  { subjPreOk := true, launchOk := true, preOk := true,
    branch := .connError "connection refused" }

/-- Screenshot oracle: every step succeeds. -/
def shotPass : ScreenshotWorld :=
  { subjPreOk := true, launchOk := true, preOk := true, branch := .pass }

/-- A tag whose container becomes ready, has a build label and a package
list, but whose screenshot attempt hits a connection error. -/
def wScreenshotFail : TagWorld :=
  { startOk := true
    polls := [.ok "xx [ls.io-init] done."]
    buildLabel := .ok "1.2.3"
    execResult := .ok "pkg-a"
    finalLogs := "LOGS"
    shot := shotConnErr }

/-- A tag whose container never prints a readiness marker inside the
5-minute budget but carries a valid build label. -/
def wTimeout : TagWorld :=
  { startOk := true
    polls := [.ok "no markers here"]
    buildLabel := .ok "1.2.3"
    execResult := .ok "pkg-a"
    finalLogs := "LOGS"
    shot := shotConnErr }

/-- A fully healthy tag world. -/
def wReady : TagWorld :=
  { startOk := true
    polls := [.ok "xx [services.d] done."]
    buildLabel := .ok "1.2.3"
    execResult := .ok "pkg-a"
    finalLogs := "LOGS"
    shot := shotPass }

/-- A tag whose subject `containers.run` call raises. -/
def wStartFail : TagWorld :=
  { startOk := false
    polls := []
    buildLabel := .ok "1.2.3"
    execResult := .ok "pkg-a"
    finalLogs := ""
    shot := shotPass }

/-- A process environment whose BASE is not a recognized distro family. -/
def envGentoo : List (String × String) :=
  [("IMAGE", "img"), ("BASE", "gentoo"), ("ACCESS_KEY", "k"),
   ("SECRET_KEY", "sec"), ("META_TAG", "m"), ("TAGS", "a|b")]

theorem allEntries_addTest (s : CIState) (e : TestEntry) :
    allEntries (addTest s e) = allEntries s ++ [e] := by
  simp [allEntries, addTest]

theorem allEntries_setFail (s : CIState) :
    allEntries (setFail s) = allEntries s := rfl

theorem allEntries_endtest (s : CIState) (tag l bv pk : String) :
    allEntries (endtest s tag l bv pk) = allEntries s := by
  simp [allEntries, endtest]

theorem statusInv_endtest {s : CIState} (h : statusInv s) (tag l bv pk : String) :
    statusInv (endtest s tag l bv pk) := by
  unfold statusInv at *
  rw [allEntries_endtest]
  exact h

theorem statusInv_failExit (s : CIState) (e : TestEntry) (he : coreBad e = true)
    (tag l bv pk : String) :
    statusInv (endtest (setFail (addTest s e)) tag l bv pk) := by
  unfold statusInv
  rw [allEntries_endtest, allEntries_setFail, allEntries_addTest]
  simp [endtest, setFail, List.any_append, he]

theorem statusInv_passAdd {s : CIState} (e : TestEntry) (he : coreBad e = false)
    (h : statusInv s) : statusInv (addTest s e) := by
  unfold statusInv at *
  rw [allEntries_addTest]
  simpa [addTest, List.any_append, he] using h

theorem statusInv_of_fields {s t : CIState}
    (h1 : t.tag_report_tests = s.tag_report_tests)
    (h2 : t.report_containers = s.report_containers)
    (h3 : t.report_status = s.report_status)
    (h : statusInv s) : statusInv t := by
  unfold statusInv allEntries at *
  rw [h1, h2, h3]
  exact h

theorem coreBad_shotEntry (b : ShotBranch) : coreBad (shotEntry b) = false := by
  cases b <;> simp [coreBad, shotEntry]

theorem take_screenshot_eq_subjPre (w : ScreenshotWorld) (s : CIState)
    (h1 : w.subjPreOk = false) : take_screenshot w s = (true, s) := by
  simp [take_screenshot, h1]

theorem take_screenshot_eq_launch (w : ScreenshotWorld) (s : CIState)
    (h1 : w.subjPreOk = true) (h2 : w.launchOk = false) :
    take_screenshot w s = (true, s) := by
  simp [take_screenshot, h1, h2]

theorem take_screenshot_eq_pre (w : ScreenshotWorld) (s : CIState)
    (h1 : w.subjPreOk = true) (h2 : w.launchOk = true) (h3 : w.preOk = false) :
    take_screenshot w s = (true, { s with helperStarts := s.helperStarts + 1 }) := by
  simp [take_screenshot, h1, h2, h3]

theorem take_screenshot_eq_complete (w : ScreenshotWorld) (s : CIState)
    (h1 : w.subjPreOk = true) (h2 : w.launchOk = true) (h3 : w.preOk = true) :
    take_screenshot w s =
      (false,
        { s with
            tag_report_tests := s.tag_report_tests ++ [shotEntry w.branch]
            helperStarts := s.helperStarts + 1
            helperRemoves := s.helperRemoves + 1 }) := by
  simp [take_screenshot, addTest, h1, h2, h3]

theorem statusInv_take_screenshot (w : ScreenshotWorld) {s : CIState}
    (h : statusInv s) : statusInv (take_screenshot w s).2 := by
  cases h1 : w.subjPreOk with
  | false => rw [take_screenshot_eq_subjPre w s h1]; exact h
  | true =>
    cases h2 : w.launchOk with
    | false => rw [take_screenshot_eq_launch w s h1 h2]; exact h
    | true =>
      cases h3 : w.preOk with
      | false =>
          rw [take_screenshot_eq_pre w s h1 h2 h3]
          exact statusInv_of_fields rfl rfl rfl h
      | true =>
          rw [take_screenshot_eq_complete w s h1 h2 h3]
          exact statusInv_of_fields rfl rfl rfl
            (statusInv_passAdd (shotEntry w.branch) (coreBad_shotEntry _) h)

theorem status_take_screenshot (w : ScreenshotWorld) (s : CIState) :
    (take_screenshot w s).2.report_status = s.report_status := by
  cases h1 : w.subjPreOk with
  | false => rw [take_screenshot_eq_subjPre w s h1]
  | true =>
    cases h2 : w.launchOk with
    | false => rw [take_screenshot_eq_launch w s h1 h2]
    | true =>
      cases h3 : w.preOk with
      | false => rw [take_screenshot_eq_pre w s h1 h2 h3]
      | true => rw [take_screenshot_eq_complete w s h1 h2 h3]

theorem statusInv_packageAndOn (w : TagWorld) (tag base flag bv : String)
    {s : CIState} (h : statusInv s) :
    statusInv (packageAndOn w tag base flag bv s).2 := by
  have hpass :
      statusInv (addTest { s with execCalls := s.execCalls + 1 }
        ⟨"Dump package info", "PASS", "-"⟩) :=
    statusInv_passAdd _ (by simp [coreBad]) (statusInv_of_fields rfl rfl rfl h)
  unfold packageAndOn
  cases hpc : pickCommand base with
  | none => exact statusInv_failExit s _ (by simp [coreBad]) tag w.finalLogs bv "ERROR"
  | some c =>
    cases hex : w.execResult with
    | error e => exact statusInv_failExit _ _ (by simp [coreBad]) tag w.finalLogs bv "ERROR"
    | ok pk =>
      by_cases hf : flag = "true"
      · simp only [hf, if_true]
        have hshot := statusInv_take_screenshot w.shot hpass
        rcases hts : take_screenshot w.shot
            (addTest { s with execCalls := s.execCalls + 1 }
              ⟨"Dump package info", "PASS", "-"⟩) with ⟨raised, s2⟩
        rw [hts] at hshot
        cases raised with
        | true => exact hshot
        | false => exact statusInv_endtest hshot tag w.finalLogs bv pk
      · simp only [if_neg hf]
        exact statusInv_endtest hpass tag w.finalLogs bv pk

theorem statusInv_versionAndOn (w : TagWorld) (tag base flag : String)
    (logsfound : Bool) {s : CIState} (h : statusInv s) :
    statusInv (versionAndOn w tag base flag logsfound s).2 := by
  unfold versionAndOn
  cases hbl : w.buildLabel with
  | error e => exact statusInv_failExit _ _ (by simp [coreBad]) tag w.finalLogs "ERROR" "ERROR"
  | ok bv =>
    have hpass :
        statusInv (addTest { s with attrCalls := s.attrCalls + 1 }
          ⟨"Get build version", "PASS", "-"⟩) :=
      statusInv_passAdd _ (by simp [coreBad]) (statusInv_of_fields rfl rfl rfl h)
    cases logsfound with
    | true =>
        simp only [if_true]
        exact statusInv_packageAndOn w tag base flag bv
          (statusInv_passAdd _ (by simp [coreBad]) hpass)
    | false =>
        simp only [if_false, Bool.false_eq_true]
        exact statusInv_failExit _ _ (by simp [coreBad]) tag w.finalLogs bv "ERROR"

theorem statusInv_container_test (w : TagWorld) (tag base flag : String)
    {s : CIState} (h : statusInv s) :
    statusInv (container_test w tag base flag s).2 := by
  unfold container_test
  cases hst : w.startOk with
  | false => simpa using h
  | true =>
    simp only [Bool.true_eq_false, if_false]
    have hs1 : statusInv { s with subjectStarts := s.subjectStarts + 1 } :=
      statusInv_of_fields rfl rfl rfl h
    cases hwl : watchLogs w.polls with
    | pollErr m => exact statusInv_failExit _ _ (by simp [coreBad]) tag w.finalLogs "ERROR" "ERROR"
    | found => exact statusInv_versionAndOn w tag base flag true hs1
    | deadline => exact statusInv_versionAndOn w tag base flag false hs1

theorem statusInv_run (base flag : String) (worlds : List (String × TagWorld))
    {s : CIState} (h : statusInv s) : statusInv (run base flag worlds s).2 := by
  induction worlds generalizing s with
  | nil => exact h
  | cons tw rest ih =>
    obtain ⟨tag, w⟩ := tw
    unfold run
    have hct := statusInv_container_test w tag base flag h
    rcases hts : container_test w tag base flag s with ⟨raised, s2⟩
    rw [hts] at hct
    cases raised with
    | true => exact hct
    | false => exact ih hct

theorem statusMono_packageAndOn (w : TagWorld) (tag base flag bv : String)
    (s : CIState) (h : s.report_status = "FAIL") :
    (packageAndOn w tag base flag bv s).2.report_status = "FAIL" := by
  unfold packageAndOn
  cases hpc : pickCommand base with
  | none => rfl
  | some c =>
    cases hex : w.execResult with
    | error e => rfl
    | ok pk =>
      by_cases hf : flag = "true"
      · simp only [hf, if_true]
        rcases hts : take_screenshot w.shot
            (addTest { s with execCalls := s.execCalls + 1 }
              ⟨"Dump package info", "PASS", "-"⟩) with ⟨raised, s2⟩
        have := status_take_screenshot w.shot
          (addTest { s with execCalls := s.execCalls + 1 }
            ⟨"Dump package info", "PASS", "-"⟩)
        rw [hts] at this
        cases raised with
        | true => exact this.trans h
        | false => exact this.trans h
      · simp only [if_neg hf]
        exact h

theorem statusMono_versionAndOn (w : TagWorld) (tag base flag : String)
    (logsfound : Bool) (s : CIState) (h : s.report_status = "FAIL") :
    (versionAndOn w tag base flag logsfound s).2.report_status = "FAIL" := by
  unfold versionAndOn
  cases hbl : w.buildLabel with
  | error e => rfl
  | ok bv =>
    cases logsfound with
    | true =>
        simp only [if_true]
        exact statusMono_packageAndOn w tag base flag bv _ (by simpa [addTest] using h)
    | false => rfl

theorem statusMono_container_test (w : TagWorld) (tag base flag : String)
    (s : CIState) (h : s.report_status = "FAIL") :
    (container_test w tag base flag s).2.report_status = "FAIL" := by
  unfold container_test
  cases hst : w.startOk with
  | false => simpa using h
  | true =>
    simp only [Bool.true_eq_false, if_false]
    cases hwl : watchLogs w.polls with
    | pollErr m => rfl
    | found => exact statusMono_versionAndOn w tag base flag true _ (by simpa using h)
    | deadline => exact statusMono_versionAndOn w tag base flag false _ (by simpa using h)

theorem statusMono_run (base flag : String) (worlds : List (String × TagWorld))
    (s : CIState) (h : s.report_status = "FAIL") :
    (run base flag worlds s).2.report_status = "FAIL" := by
  induction worlds generalizing s with
  | nil => exact h
  | cons tw rest ih =>
    obtain ⟨tag, w⟩ := tw
    unfold run
    have hct := statusMono_container_test w tag base flag s h
    rcases hts : container_test w tag base flag s with ⟨raised, s2⟩
    rw [hts] at hct
    cases raised with
    | true => exact hct
    | false => exact ih s2 hct

theorem frame_take_screenshot (w : ScreenshotWorld) (s : CIState) :
    (take_screenshot w s).2.report_containers = s.report_containers ∧
    (take_screenshot w s).2.subjectRemoves = s.subjectRemoves ∧
    (take_screenshot w s).2.subjectStarts = s.subjectStarts ∧
    (take_screenshot w s).2.execCalls = s.execCalls ∧
    (take_screenshot w s).2.attrCalls = s.attrCalls := by
  cases h1 : w.subjPreOk with
  | false => rw [take_screenshot_eq_subjPre w s h1]; exact ⟨rfl, rfl, rfl, rfl, rfl⟩
  | true =>
    cases h2 : w.launchOk with
    | false => rw [take_screenshot_eq_launch w s h1 h2]; exact ⟨rfl, rfl, rfl, rfl, rfl⟩
    | true =>
      cases h3 : w.preOk with
      | false => rw [take_screenshot_eq_pre w s h1 h2 h3]; exact ⟨rfl, rfl, rfl, rfl, rfl⟩
      | true => rw [take_screenshot_eq_complete w s h1 h2 h3]; exact ⟨rfl, rfl, rfl, rfl, rfl⟩

theorem endtest_shape (s : CIState) (tag l bv pk : String) :
    ∃ r, (endtest s tag l bv pk).report_containers = s.report_containers ++ [r] ∧
      r.tag = tag ∧
      (endtest s tag l bv pk).subjectRemoves = s.subjectRemoves + 1 ∧
      (endtest s tag l bv pk).subjectStarts = s.subjectStarts ∧
      (endtest s tag l bv pk).tag_report_tests = [] :=
  ⟨{ tag := tag, logs := l, sysinfo := pk, build_version := bv,
     tag_tests := s.tag_report_tests }, rfl, rfl, rfl, rfl, rfl⟩

theorem shape_packageAndOn (w : TagWorld) (tag base flag bv : String) (s : CIState)
    (h : (packageAndOn w tag base flag bv s).1 = false) :
    ∃ r, (packageAndOn w tag base flag bv s).2.report_containers =
        s.report_containers ++ [r] ∧
      r.tag = tag ∧
      (packageAndOn w tag base flag bv s).2.subjectRemoves = s.subjectRemoves + 1 ∧
      (packageAndOn w tag base flag bv s).2.subjectStarts = s.subjectStarts ∧
      (packageAndOn w tag base flag bv s).2.tag_report_tests = [] := by
  unfold packageAndOn at *
  cases hpc : pickCommand base with
  | none => exact endtest_shape _ tag w.finalLogs bv "ERROR"
  | some c =>
    cases hex : w.execResult with
    | error e => exact endtest_shape _ tag w.finalLogs bv "ERROR"
    | ok pk =>
      by_cases hf : flag = "true"
      · rw [hpc, hex] at h
        simp only [hf, if_true] at h ⊢
        have hfr := frame_take_screenshot w.shot
          (addTest { s with execCalls := s.execCalls + 1 }
            ⟨"Dump package info", "PASS", "-"⟩)
        rcases hts : take_screenshot w.shot
            (addTest { s with execCalls := s.execCalls + 1 }
              ⟨"Dump package info", "PASS", "-"⟩) with ⟨raised, s2⟩
        rw [hts] at hfr h
        cases raised with
        | true => simp at h
        | false =>
          dsimp only [addTest] at hfr ⊢
          obtain ⟨r, h1, h2, h3, h4, h5⟩ := endtest_shape s2 tag w.finalLogs bv pk
          refine ⟨r, ?_, h2, ?_, ?_, h5⟩
          · rw [h1, hfr.1]
          · rw [h3, hfr.2.1]
          · rw [h4, hfr.2.2.1]
      · simp only [if_neg hf]
        exact endtest_shape _ tag w.finalLogs bv pk

theorem shape_versionAndOn (w : TagWorld) (tag base flag : String) (lf : Bool)
    (s : CIState) (h : (versionAndOn w tag base flag lf s).1 = false) :
    ∃ r, (versionAndOn w tag base flag lf s).2.report_containers =
        s.report_containers ++ [r] ∧
      r.tag = tag ∧
      (versionAndOn w tag base flag lf s).2.subjectRemoves = s.subjectRemoves + 1 ∧
      (versionAndOn w tag base flag lf s).2.subjectStarts = s.subjectStarts ∧
      (versionAndOn w tag base flag lf s).2.tag_report_tests = [] := by
  unfold versionAndOn at *
  cases hbl : w.buildLabel with
  | error e => exact endtest_shape _ tag w.finalLogs "ERROR" "ERROR"
  | ok bv =>
    cases lf with
    | true =>
      rw [hbl] at h
      simp only [if_true] at h ⊢
      exact shape_packageAndOn w tag base flag bv _ h
    | false => exact endtest_shape _ tag w.finalLogs bv "ERROR"

theorem shape_container_test (w : TagWorld) (tag base flag : String) (s : CIState)
    (h : (container_test w tag base flag s).1 = false) :
    ∃ r, (container_test w tag base flag s).2.report_containers =
        s.report_containers ++ [r] ∧
      r.tag = tag ∧
      (container_test w tag base flag s).2.subjectRemoves = s.subjectRemoves + 1 ∧
      (container_test w tag base flag s).2.subjectStarts = s.subjectStarts + 1 ∧
      (container_test w tag base flag s).2.tag_report_tests = [] := by
  unfold container_test at *
  cases hst : w.startOk with
  | false => rw [hst] at h; simp at h
  | true =>
    rw [hst] at h
    simp only [Bool.true_eq_false, if_false] at h ⊢
    cases hwl : watchLogs w.polls with
    | pollErr m => exact endtest_shape _ tag w.finalLogs "ERROR" "ERROR"
    | found =>
      rw [hwl] at h
      exact shape_versionAndOn w tag base flag true _ h
    | deadline =>
      rw [hwl] at h
      exact shape_versionAndOn w tag base flag false _ h

/-- C1 counterexample: the claim "overall status equals FAIL iff at least
one TagTestResult has a non-PASS outcome" is false on the code — a run
whose only failure is the screenshot step records a non-PASS entry
(`FAIL CONNECTION ERROR`) while `report_status` stays `PASS`, because the
three screenshot except arms never set the status. -/
theorem C1_counterexample :
    (container_test wScreenshotFail "1.0" "alpine" "true" initState).2.report_status
      = "PASS" ∧
    ((allEntries (container_test wScreenshotFail "1.0" "alpine" "true" initState).2).any
      (fun e => e.outcome != "PASS")) = true :=
  ⟨rfl, rfl⟩

/-- C1 (amended): the status discipline the code maintains is
`report_status = FAIL` iff some recorded entry is a non-PASS entry of a
check other than "Get screenshot": this invariant holds initially, is
preserved by every `container_test` invocation and by whole runs, and the
status is monotone (never reset from FAIL to PASS). The three screenshot
failure branches append non-PASS entries without touching the status. -/
theorem C1_amended_status_invariant :
    statusInv initState ∧
    (∀ (w : TagWorld) (tag base flag : String) (s : CIState),
      statusInv s → statusInv (container_test w tag base flag s).2) ∧
    (∀ (w : TagWorld) (tag base flag : String) (s : CIState),
      s.report_status = "FAIL" →
      (container_test w tag base flag s).2.report_status = "FAIL") ∧
    (∀ (base flag : String) (worlds : List (String × TagWorld)) (s : CIState),
      statusInv s → statusInv (run base flag worlds s).2) ∧
    (∀ (base flag : String) (worlds : List (String × TagWorld)) (s : CIState),
      s.report_status = "FAIL" → (run base flag worlds s).2.report_status = "FAIL") := by
  refine ⟨?_, ?_, ?_, ?_, ?_⟩
  · simp [statusInv, allEntries, initState]
  · intro w tag base flag s h
    exact statusInv_container_test w tag base flag h
  · intro w tag base flag s h
    exact statusMono_container_test w tag base flag s h
  · intro base flag worlds s h
    exact statusInv_run base flag worlds h
  · intro base flag worlds s h
    exact statusMono_run base flag worlds s h

/-- C1 witness: the amended invariant applied to a concrete run. -/
theorem C1_witness :
    statusInv (container_test wScreenshotFail "1.0" "alpine" "true" initState).2 :=
  C1_amended_status_invariant.2.1 wScreenshotFail "1.0" "alpine" "true" initState
    (by simp [statusInv, allEntries, initState])

/-- C3: whenever the per-tag state machine completes without an escaped
exception (poll error, readiness timeout, version-extraction failure,
package-dump failure, or full success), exactly one ContainerReport
carrying the tag is appended, the subject container is started once and
force-removed exactly once, and the accumulator is cleared; over a tag
list, a run yields one report per tag in request order and one subject
removal per tag. -/
theorem C3_one_report_per_tag :
    (∀ (w : TagWorld) (tag base flag : String) (s : CIState),
      (container_test w tag base flag s).1 = false →
      ∃ r, (container_test w tag base flag s).2.report_containers =
          s.report_containers ++ [r] ∧
        r.tag = tag ∧
        (container_test w tag base flag s).2.subjectRemoves = s.subjectRemoves + 1 ∧
        (container_test w tag base flag s).2.subjectStarts = s.subjectStarts + 1 ∧
        (container_test w tag base flag s).2.tag_report_tests = []) ∧
    (∀ (base flag : String) (worlds : List (String × TagWorld)) (s : CIState),
      (run base flag worlds s).1 = false →
      (run base flag worlds s).2.report_containers.map ContainerReport.tag =
        s.report_containers.map ContainerReport.tag ++ worlds.map Prod.fst ∧
      (run base flag worlds s).2.subjectRemoves =
        s.subjectRemoves + worlds.length) := by
  constructor
  · intro w tag base flag s h
    exact shape_container_test w tag base flag s h
  · intro base flag worlds s h
    induction worlds generalizing s with
    | nil => simp [run]
    | cons tw rest ih =>
      obtain ⟨tag, w⟩ := tw
      have hshape := shape_container_test w tag base flag s
      unfold run at h ⊢
      rcases hct : container_test w tag base flag s with ⟨raised, s2⟩
      rw [hct] at hshape
      cases raised with
      | true =>
        rw [hct] at h
        simp at h
      | false =>
        rw [hct] at h
        dsimp only at h hshape
        obtain ⟨r, h1, h2, h3, h4, h5⟩ := hshape rfl
        obtain ⟨ih1, ih2⟩ := ih s2 h
        constructor
        · rw [ih1, h1, List.map_append]
          simp [h2, List.append_assoc]
        · rw [ih2, h3, List.length_cons]
          omega

/-- C3 witness: a concrete fully successful tag appends one report with
that tag and removes the subject container once. -/
theorem C3_witness :
    ∃ r, (container_test wReady "1.0" "alpine" "false" initState).2.report_containers =
        initState.report_containers ++ [r] ∧
      r.tag = "1.0" ∧
      (container_test wReady "1.0" "alpine" "false" initState).2.subjectRemoves =
        initState.subjectRemoves + 1 ∧
      (container_test wReady "1.0" "alpine" "false" initState).2.subjectStarts =
        initState.subjectStarts + 1 ∧
      (container_test wReady "1.0" "alpine" "false" initState).2.tag_report_tests = [] :=
  C3_one_report_per_tag.1 wReady "1.0" "alpine" "false" initState (by rfl)

/-- C4 counterexample: when the subject `containers.run` raises, the claim
says a FAIL entry is recorded, finalization happens, and nothing escapes;
the code instead lets the exception escape `container_test` (first
component `true`) with the state untouched — no test entry, no report,
no teardown. -/
theorem C4_counterexample :
    container_test wStartFail "1.0" "alpine" "false" initState = (true, initState) ∧
    initState.tag_report_tests = [] ∧
    initState.report_containers = [] :=
  ⟨rfl, rfl, rfl⟩

/-- C4 (amended): a failing subject container start escapes
`container_test` unhandled and leaves the CI state (test entries, reports,
status, counters) completely unchanged; nothing is recorded and no
teardown runs for that tag. -/
theorem C4_amended_start_failure_escapes :
    ∀ (w : TagWorld) (tag base flag : String) (s : CIState),
      w.startOk = false → container_test w tag base flag s = (true, s) := by
  intro w tag base flag s h
  unfold container_test
  rw [h]
  simp

/-- C4 witness: the amended statement at a concrete start-failure world. -/
theorem C4_witness :
    container_test wStartFail "latest" "alpine" "true" initState = (true, initState) :=
  C4_amended_start_failure_escapes wStartFail "latest" "alpine" "true" initState rfl

/-- C5: once the helper (tester) container is launched and the pre-try
steps succeed, every branch of the try/except — success, connection error,
timeout, unknown — records exactly one "Get screenshot" entry with the
matching classification instead of propagating, and the helper container
is force-removed exactly once. -/
theorem C5_screenshot_branches_record_and_remove :
    ∀ (w : ScreenshotWorld) (s : CIState),
      w.subjPreOk = true → w.launchOk = true → w.preOk = true →
      (take_screenshot w s).1 = false ∧
      (take_screenshot w s).2.helperRemoves = s.helperRemoves + 1 ∧
      (take_screenshot w s).2.helperStarts = s.helperStarts + 1 ∧
      (take_screenshot w s).2.tag_report_tests =
        s.tag_report_tests ++ [shotEntry w.branch] ∧
      (shotEntry w.branch).check = "Get screenshot" ∧
      (w.branch = .pass → (shotEntry w.branch).outcome = "PASS") ∧
      (∀ m, w.branch = .connError m →
        (shotEntry w.branch).outcome = "FAIL CONNECTION ERROR" ∧
        (shotEntry w.branch).detail = m) ∧
      (∀ m, w.branch = .timeoutErr m →
        (shotEntry w.branch).outcome = "FAIL TIMEOUT") ∧
      (∀ m, w.branch = .unknown m →
        (shotEntry w.branch).outcome = "FAIL UNKNOWN") := by
  intro w s h1 h2 h3
  rw [take_screenshot_eq_complete w s h1 h2 h3]
  refine ⟨rfl, rfl, rfl, rfl, ?_, ?_, ?_, ?_, ?_⟩
  · cases hb : w.branch <;> rfl
  · intro hb; rw [hb]; rfl
  · intro m hb; rw [hb]; exact ⟨rfl, rfl⟩
  · intro m hb; rw [hb]; rfl
  · intro m hb; rw [hb]; rfl

/-- C5 witness: a helper that never becomes reachable records a single
FAIL CONNECTION ERROR "Get screenshot" entry and is still removed. -/
theorem C5_witness :
    (take_screenshot shotConnErr initState).1 = false ∧
    (take_screenshot shotConnErr initState).2.helperRemoves =
      initState.helperRemoves + 1 ∧
    (take_screenshot shotConnErr initState).2.helperStarts =
      initState.helperStarts + 1 ∧
    (take_screenshot shotConnErr initState).2.tag_report_tests =
      initState.tag_report_tests ++ [shotEntry shotConnErr.branch] ∧
    (shotEntry shotConnErr.branch).check = "Get screenshot" ∧
    (shotConnErr.branch = .pass → (shotEntry shotConnErr.branch).outcome = "PASS") ∧
    (∀ m, shotConnErr.branch = .connError m →
      (shotEntry shotConnErr.branch).outcome = "FAIL CONNECTION ERROR" ∧
      (shotEntry shotConnErr.branch).detail = m) ∧
    (∀ m, shotConnErr.branch = .timeoutErr m →
      (shotEntry shotConnErr.branch).outcome = "FAIL TIMEOUT") ∧
    (∀ m, shotConnErr.branch = .unknown m →
      (shotEntry shotConnErr.branch).outcome = "FAIL UNKNOWN") :=
  C5_screenshot_branches_record_and_remove shotConnErr initState rfl rfl rfl

theorem container_test_eq_pollErr (w : TagWorld) (tag base flag : String)
    (s : CIState) (m : String) (h1 : w.startOk = true)
    (h2 : watchLogs w.polls = .pollErr m) :
    container_test w tag base flag s =
      (false, endtest
        (setFail (addTest { s with subjectStarts := s.subjectStarts + 1 }
          ⟨"Container startup", "FAIL", "INIT NOT FINISHED"⟩))
        tag w.finalLogs "ERROR" "ERROR") := by
  simp [container_test, h1, h2]

theorem container_test_eq_found (w : TagWorld) (tag base flag : String)
    (s : CIState) (h1 : w.startOk = true) (h2 : watchLogs w.polls = .found) :
    container_test w tag base flag s =
      versionAndOn w tag base flag true
        { s with subjectStarts := s.subjectStarts + 1 } := by
  simp [container_test, h1, h2]

theorem container_test_eq_deadline (w : TagWorld) (tag base flag : String)
    (s : CIState) (h1 : w.startOk = true) (h2 : watchLogs w.polls = .deadline) :
    container_test w tag base flag s =
      versionAndOn w tag base flag false
        { s with subjectStarts := s.subjectStarts + 1 } := by
  simp [container_test, h1, h2]

theorem versionAndOn_eq_buildErr (w : TagWorld) (tag base flag : String)
    (lf : Bool) (s : CIState) (e : String) (h : w.buildLabel = .error e) :
    versionAndOn w tag base flag lf s =
      (false, endtest
        (setFail (addTest { s with attrCalls := s.attrCalls + 1 }
          ⟨"Get build version", "FAIL", e⟩))
        tag w.finalLogs "ERROR" "ERROR") := by
  simp [versionAndOn, h]

theorem versionAndOn_eq_ok_notfound (w : TagWorld) (tag base flag : String)
    (s : CIState) (bv : String) (h : w.buildLabel = .ok bv) :
    versionAndOn w tag base flag false s =
      (false, endtest
        (setFail (addTest
          (addTest { s with attrCalls := s.attrCalls + 1 }
            ⟨"Get build version", "PASS", "-"⟩)
          ⟨"Container startup", "FAIL", "INIT NOT FINISHED"⟩))
        tag w.finalLogs bv "ERROR") := by
  simp [versionAndOn, h]

theorem versionAndOn_eq_ok_found (w : TagWorld) (tag base flag : String)
    (s : CIState) (bv : String) (h : w.buildLabel = .ok bv) :
    versionAndOn w tag base flag true s =
      packageAndOn w tag base flag bv
        (addTest
          (addTest { s with attrCalls := s.attrCalls + 1 }
            ⟨"Get build version", "PASS", "-"⟩)
          ⟨"Container startup", "PASS", "-"⟩) := by
  simp [versionAndOn, h]

theorem packageAndOn_eq_noCmd (w : TagWorld) (tag base flag bv : String)
    (s : CIState) (h : pickCommand base = none) :
    packageAndOn w tag base flag bv s =
      (false, endtest
        (setFail (addTest s
          ⟨"Dump package info", "FAIL", "NameError: name command is not defined"⟩))
        tag w.finalLogs bv "ERROR") := by
  simp [packageAndOn, h]

theorem packageAndOn_eq_execErr (w : TagWorld) (tag base flag bv : String)
    (s : CIState) (c e : String) (h : pickCommand base = some c)
    (h2 : w.execResult = .error e) :
    packageAndOn w tag base flag bv s =
      (false, endtest
        (setFail (addTest { s with execCalls := s.execCalls + 1 }
          ⟨"Dump package info", "FAIL", e⟩))
        tag w.finalLogs bv "ERROR") := by
  simp [packageAndOn, h, h2]

theorem packageAndOn_eq_ok_noshot (w : TagWorld) (tag base flag bv : String)
    (s : CIState) (c pk : String) (h : pickCommand base = some c)
    (h2 : w.execResult = .ok pk) (h3 : flag ≠ "true") :
    packageAndOn w tag base flag bv s =
      (false, endtest
        (addTest { s with execCalls := s.execCalls + 1 }
          ⟨"Dump package info", "PASS", "-"⟩)
        tag w.finalLogs bv pk) := by
  simp [packageAndOn, h, h2, h3]

theorem packageAndOn_eq_ok_shot (w : TagWorld) (tag base bv : String)
    (s : CIState) (c pk : String) (h : pickCommand base = some c)
    (h2 : w.execResult = .ok pk) :
    packageAndOn w tag base "true" bv s =
      (match take_screenshot w.shot
          (addTest { s with execCalls := s.execCalls + 1 }
            ⟨"Dump package info", "PASS", "-"⟩) with
        | (true, s2) => (true, s2)
        | (false, s2) => (false, endtest s2 tag w.finalLogs bv pk)) := by
  simp [packageAndOn, h, h2]

/-- C2 counterexample: on a readiness timeout (deadline expiry, no poll
error) the claim says the report carries `build_version = "ERROR"` and the
extraction is never attempted; the code attempts the build-version lookup
anyway (lines 122-133 run before the `logsfound` check), records it, and
stores the extracted label `1.2.3` in the report. Only `packages` is the
sentinel. -/
theorem C2_counterexample :
    watchLogs wTimeout.polls = .deadline ∧
    (container_test wTimeout "1.0" "alpine" "false" initState).2.report_containers.map
        ContainerReport.build_version = ["1.2.3"] ∧
    ¬ ((container_test wTimeout "1.0" "alpine" "false" initState).2.report_containers.map
        ContainerReport.build_version = ["ERROR"]) ∧
    (container_test wTimeout "1.0" "alpine" "false" initState).2.attrCalls = 1 ∧
    (container_test wTimeout "1.0" "alpine" "false" initState).2.report_containers.map
        ContainerReport.sysinfo = ["ERROR"] := by
  refine ⟨rfl, rfl, ?_, rfl, rfl⟩
  decide

/-- C2 (amended): when readiness polling times out, the tag report has
`packages = "ERROR"` and the package-inventory command is never executed,
but the build-version extraction IS attempted first: `build_version` equals
the extracted label when the lookup succeeds and `"ERROR"` only when it
raises. Only the poll-error path skips the extraction and forces both
sentinels. -/
theorem C2_amended_readiness_failure_reports :
    ∀ (w : TagWorld) (tag base flag : String) (s : CIState),
      w.startOk = true →
      ((watchLogs w.polls = .deadline →
        ∃ r, (container_test w tag base flag s).2.report_containers =
            s.report_containers ++ [r] ∧
          r.sysinfo = "ERROR" ∧
          (container_test w tag base flag s).2.execCalls = s.execCalls ∧
          (container_test w tag base flag s).2.attrCalls = s.attrCalls + 1 ∧
          (∀ bv, w.buildLabel = .ok bv → r.build_version = bv) ∧
          (∀ e, w.buildLabel = .error e → r.build_version = "ERROR")) ∧
      (∀ m, watchLogs w.polls = .pollErr m →
        ∃ r, (container_test w tag base flag s).2.report_containers =
            s.report_containers ++ [r] ∧
          r.sysinfo = "ERROR" ∧ r.build_version = "ERROR" ∧
          (container_test w tag base flag s).2.execCalls = s.execCalls ∧
          (container_test w tag base flag s).2.attrCalls = s.attrCalls)) := by
  intro w tag base flag s hst
  constructor
  · intro hwl
    rw [container_test_eq_deadline w tag base flag s hst hwl]
    cases hbl : w.buildLabel with
    | error e =>
      rw [versionAndOn_eq_buildErr w tag base flag false _ e hbl]
      refine ⟨_, rfl, rfl, rfl, rfl, ?_, ?_⟩
      · intro bv hbv
        simp at hbv
      · intro e2 he2
        rfl
    | ok bv =>
      rw [versionAndOn_eq_ok_notfound w tag base flag _ bv hbl]
      refine ⟨_, rfl, rfl, rfl, rfl, ?_, ?_⟩
      · intro bv2 hbv
        have h2 : bv = bv2 := by injection hbv
        exact h2
      · intro e2 he2
        simp at he2
  · intro m hwl
    rw [container_test_eq_pollErr w tag base flag s m hst hwl]
    exact ⟨_, rfl, rfl, rfl, rfl, rfl⟩

/-- C2 witness: the amended statement at the concrete timing-out world. -/
theorem C2_witness :
    ∃ r, (container_test wTimeout "1.0" "alpine" "false" initState).2.report_containers =
        initState.report_containers ++ [r] ∧
      r.sysinfo = "ERROR" ∧
      (container_test wTimeout "1.0" "alpine" "false" initState).2.execCalls =
        initState.execCalls ∧
      (container_test wTimeout "1.0" "alpine" "false" initState).2.attrCalls =
        initState.attrCalls + 1 ∧
      (∀ bv, wTimeout.buildLabel = .ok bv → r.build_version = bv) ∧
      (∀ e, wTimeout.buildLabel = .error e → r.build_version = "ERROR") :=
  (C2_amended_readiness_failure_reports wTimeout "1.0" "alpine" "false" initState rfl).1
    (by decide)

/-- C6 counterexample: with BASE=gentoo (unrecognized family) the claim
says configuration loading rejects before any container is started and the
error is never reported as a package-dump failure; the code's `check_env`
accepts any BASE value, the subject container is started, and the
unrecognized family surfaces as a FAIL "Dump package info" entry (the
`NameError` on the unbound `command` variable is caught by the package-dump
except arm). -/
theorem C6_counterexample :
    check_env envGentoo = .ok ⟨"img", "gentoo", "k", "sec", "m", ["a", "b"]⟩ ∧
    pickCommand "gentoo" = none ∧
    (container_test wReady "1.0" "gentoo" "false" initState).2.subjectStarts = 1 ∧
    ((container_test wReady "1.0" "gentoo" "false" initState).2.report_containers.map
        ContainerReport.tag_tests).flatten.any
      (fun e => e.check == "Dump package info" && e.outcome == "FAIL") = true :=
  ⟨rfl, rfl, rfl, rfl⟩

/-- C6 (amended): `check_env` validates only the presence of the six
required variables, never the BASE value, so an unrecognized family passes
configuration loading; the container is then started and, for a ready
container, the unrecognized family is reported as a FAIL "Dump package
info" entry with `packages = "ERROR"`, the inventory command never being
executed. -/
theorem C6_amended_unrecognized_base :
    (∀ (env : List (String × String)) (i b k sec m t : String),
      lookupEnv env "IMAGE" = some i → lookupEnv env "BASE" = some b →
      lookupEnv env "ACCESS_KEY" = some k → lookupEnv env "SECRET_KEY" = some sec →
      lookupEnv env "META_TAG" = some m → lookupEnv env "TAGS" = some t →
      ∃ cfg, check_env env = .ok cfg ∧ cfg.base = b) ∧
    (∀ (w : TagWorld) (tag base flag : String) (s : CIState) (bv : String),
      pickCommand base = none → w.startOk = true →
      watchLogs w.polls = .found → w.buildLabel = .ok bv →
      (container_test w tag base flag s).2.subjectStarts = s.subjectStarts + 1 ∧
      (container_test w tag base flag s).2.execCalls = s.execCalls ∧
      ∃ r, (container_test w tag base flag s).2.report_containers =
          s.report_containers ++ [r] ∧
        r.sysinfo = "ERROR" ∧
        r.tag_tests.any
          (fun e => e.check == "Dump package info" && e.outcome == "FAIL") = true) := by
  constructor
  · intro env i b k sec m t h1 h2 h3 h4 h5 h6
    unfold check_env
    rw [h1, h2, h3, h4, h5, h6]
    exact ⟨_, rfl, rfl⟩
  · intro w tag base flag s bv hpc hst hwl hbl
    rw [container_test_eq_found w tag base flag s hst hwl,
        versionAndOn_eq_ok_found w tag base flag _ bv hbl,
        packageAndOn_eq_noCmd w tag base flag bv _ hpc]
    refine ⟨rfl, rfl, _, rfl, rfl, ?_⟩
    simp [endtest, setFail, addTest, List.any_append]

/-- C6 witness: the amended statement at the gentoo environment and a
concrete ready world. -/
theorem C6_witness :
    (container_test wReady "1.0" "gentoo" "false" initState).2.subjectStarts =
      initState.subjectStarts + 1 ∧
    (container_test wReady "1.0" "gentoo" "false" initState).2.execCalls =
      initState.execCalls ∧
    ∃ r, (container_test wReady "1.0" "gentoo" "false" initState).2.report_containers =
        initState.report_containers ++ [r] ∧
      r.sysinfo = "ERROR" ∧
      r.tag_tests.any
        (fun e => e.check == "Dump package info" && e.outcome == "FAIL") = true :=
  C6_amended_unrecognized_base.2 wReady "1.0" "gentoo" "false" initState "1.2.3"
    rfl rfl (by decide) rfl

/-- C7: readiness detection is marker-order-independent — the poller fires
iff either marker occurs as a substring of the log blob, a log holding
either single marker is detected, and two logs each holding exactly one
(different) marker are detected identically. -/
theorem C7_marker_order_independent :
    (∀ logblob : String,
      logReady logblob =
        (strContains logblob marker1 || strContains logblob marker2)) ∧
    (∀ logblob : String,
      (strContains logblob marker1 = true ∨ strContains logblob marker2 = true) →
      logReady logblob = true) ∧
    (∀ la lb : String,
      strContains la marker1 = true → strContains la marker2 = false →
      strContains lb marker1 = false → strContains lb marker2 = true →
      logReady la = logReady lb) ∧
    (∀ (logblob : String) (rest : List PollStep),
      logReady logblob = true → watchLogs (.ok logblob :: rest) = .found) := by
  refine ⟨fun _ => rfl, ?_, ?_, ?_⟩
  · intro l h
    cases h with
    | inl h => simp [logReady, h]
    | inr h => simp [logReady, h]
  · intro la lb h1 h2 h3 h4
    simp [logReady, h1, h4]
  · intro l rest h
    simp [watchLogs, h]

/-- C7 witness: a log holding only the first marker and a log holding only
the second marker are detected identically. -/
theorem C7_witness :
    logReady "aa [services.d] done. bb" = logReady "cc [ls.io-init] done. dd" :=
  C7_marker_order_independent.2.2.1 "aa [services.d] done. bb"
    "cc [ls.io-init] done. dd" (by decide) (by decide) (by decide) (by decide)

/-- C8: the retry policy (10 attempts, exponential backoff, forcelist
502/503/504) is configured and mounted, but under the `requests` adapter
resolution it never applies to the request against the helper control
endpoint: the adapter is mounted at the bare scheme (`http`/`https`,
missing `://`), so the session default no-retry adapter mounted at
`http://` is the longest matching prefix for the probed URL and wins.
The claim (and the spec's intent) say the retry applies; the code is a
slip. -/
theorem C8_retry_not_applied :
    retryConfigured = .retryPolicy 10 2 [502, 503, 504] ∧
    ("http", retryConfigured) ∈ screenshotSession "http" ∧
    getAdapter (screenshotSession "http") (testerEndpointOf "172.17.0.2") =
      some .noRetry ∧
    getAdapter (screenshotSession "https") (testerEndpointOf "172.17.0.2") =
      some .noRetry := by
  refine ⟨rfl, ?_, ?_, ?_⟩ <;> decide

/-- C9: on a fully successful tag run the recorded entries appear in the
order "Get build version", "Container startup", "Dump package info" (and
then the screenshot entry when enabled): version extraction is executed
and recorded before the readiness verdict is recorded. -/
theorem C9_success_entry_order :
    ∀ (w : TagWorld) (tag base : String) (s : CIState) (bv pk c : String),
      w.startOk = true → watchLogs w.polls = .found →
      w.buildLabel = .ok bv → pickCommand base = some c →
      w.execResult = .ok pk → s.tag_report_tests = [] →
      ((container_test w tag base "false" s).2.report_containers =
        s.report_containers ++
          [{ tag := tag, logs := w.finalLogs, sysinfo := pk, build_version := bv,
             tag_tests := [⟨"Get build version", "PASS", "-"⟩,
               ⟨"Container startup", "PASS", "-"⟩,
               ⟨"Dump package info", "PASS", "-"⟩] }]) ∧
      (w.shot.subjPreOk = true → w.shot.launchOk = true → w.shot.preOk = true →
        (container_test w tag base "true" s).2.report_containers =
          s.report_containers ++
            [{ tag := tag, logs := w.finalLogs, sysinfo := pk, build_version := bv,
               tag_tests := [⟨"Get build version", "PASS", "-"⟩,
                 ⟨"Container startup", "PASS", "-"⟩,
                 ⟨"Dump package info", "PASS", "-"⟩,
                 shotEntry w.shot.branch] }]) := by
  intro w tag base s bv pk c hst hwl hbl hpc hex hts
  constructor
  · rw [container_test_eq_found w tag base "false" s hst hwl,
        versionAndOn_eq_ok_found w tag base "false" _ bv hbl,
        packageAndOn_eq_ok_noshot w tag base "false" bv _ c pk hpc hex (by decide)]
    simp [endtest, addTest, hts]
  · intro hsp hlo hpo
    rw [container_test_eq_found w tag base "true" s hst hwl,
        versionAndOn_eq_ok_found w tag base "true" _ bv hbl,
        packageAndOn_eq_ok_shot w tag base bv _ c pk hpc hex,
        take_screenshot_eq_complete w.shot _ hsp hlo hpo]
    simp [endtest, addTest, hts]

/-- C9 witness: the entry order at a concrete fully successful world. -/
theorem C9_witness :
    (container_test wReady "1.0" "alpine" "false" initState).2.report_containers =
      initState.report_containers ++
        [{ tag := "1.0", logs := wReady.finalLogs, sysinfo := "pkg-a",
           build_version := "1.2.3",
           tag_tests := [⟨"Get build version", "PASS", "-"⟩,
             ⟨"Container startup", "PASS", "-"⟩,
             ⟨"Dump package info", "PASS", "-"⟩] }] :=
  (C9_success_entry_order wReady "1.0" "alpine" initState "1.2.3" "pkg-a"
    "apk info -v" rfl (by decide) rfl rfl rfl rfl).1

theorem splitChar_of_not_mem (sep : Char) :
    ∀ (l : List Char), sep ∉ l → splitChar sep l = [l] := by
  intro l
  induction l with
  | nil => intro _; rfl
  | cons c cs ih =>
    intro h
    have hc : (c == sep) = false := by
      simp only [beq_eq_false_iff_ne]
      exact fun he => h (by rw [he]; exact List.mem_cons_self _ _)
    have hcs : sep ∉ cs := fun hm => h (List.mem_cons_of_mem _ hm)
    simp [splitChar, hc, ih hcs]

theorem splitChar_append_sep (sep : Char) :
    ∀ (x rest : List Char), sep ∉ x →
      splitChar sep (x ++ sep :: rest) = x :: splitChar sep rest := by
  intro x
  induction x with
  | nil =>
    intro rest _
    simp [splitChar]
  | cons c cs ih =>
    intro rest h
    have hc : (c == sep) = false := by
      simp only [beq_eq_false_iff_ne]
      exact fun he => h (by rw [he]; exact List.mem_cons_self _ _)
    have hcs : sep ∉ cs := fun hm => h (List.mem_cons_of_mem _ hm)
    simp only [List.cons_append, splitChar, hc, Bool.false_eq_true, if_false,
      List.append_eq]
    rw [ih rest hcs]

theorem parseVar_pair (k v : List Char) (hk : '=' ∉ k) (hv : '=' ∉ v) :
    parseVar (k ++ '=' :: v) = some (⟨k⟩, ⟨v⟩) := by
  unfold parseVar
  rw [splitChar_append_sep '=' k v hk, splitChar_of_not_mem '=' v hv]

theorem parseVar_dropRest (k v r : List Char) (hk : '=' ∉ k) (hv : '=' ∉ v) :
    parseVar (k ++ '=' :: (v ++ '=' :: r)) = some (⟨k⟩, ⟨v⟩) := by
  unfold parseVar
  rw [splitChar_append_sep '=' k (v ++ '=' :: r) hk,
      splitChar_append_sep '=' v r hv]

theorem parseVar_noEq (l : List Char) (h : '=' ∉ l) : parseVar l = none := by
  unfold parseVar
  rw [splitChar_of_not_mem '=' l h]

theorem dictAssign_new (d : List (String × String)) (k v : String)
    (h : ∀ q ∈ d, q.1 ≠ k) : dictAssign d k v = d ++ [(k, v)] := by
  unfold dictAssign
  have hany : d.any (fun p => p.1 == k) = false := by
    rw [List.any_eq_false]
    intro p hp
    simpa using h p hp
  rw [hany]
  simp

theorem convertFold :
    ∀ (segs : List (List Char)) (ps d : List (String × String)),
      segs.map parseVar = ps.map some →
      ps.Pairwise (fun a b => a.1 ≠ b.1) →
      (∀ p ∈ ps, ∀ q ∈ d, q.1 ≠ p.1) →
      List.foldlM (fun d vp => (parseVar vp).map (fun kv => dictAssign d kv.1 kv.2))
        d segs = some (d ++ ps) := by
  intro segs
  induction segs with
  | nil =>
    intro ps d hparse _ _
    cases ps with
    | nil => simp
    | cons p ps2 =>
      simp only [List.map_nil, List.map_cons] at hparse
      exact absurd hparse (by simp)
  | cons seg rest ih =>
    intro ps d hparse hdist hd
    cases ps with
    | nil =>
      simp only [List.map_nil, List.map_cons] at hparse
      exact absurd hparse (by simp)
    | cons p ps2 =>
      simp only [List.map_cons, List.cons.injEq] at hparse
      obtain ⟨hp, hrest⟩ := hparse
      rw [List.foldlM_cons, hp]
      simp only [Option.map_some', Option.some_bind]
      rw [dictAssign_new d p.1 p.2 (fun q hq => hd p (List.mem_cons_self _ _) q hq)]
      have hd2 : ∀ p2 ∈ ps2, ∀ q ∈ d ++ [p], q.1 ≠ p2.1 := by
        intro p2 hp2 q hq
        rcases List.mem_append.mp hq with hq | hq
        · exact hd p2 (List.mem_cons_of_mem _ hp2) q hq
        · rcases List.mem_singleton.mp hq with rfl
          exact (List.pairwise_cons.mp hdist).1 p2 hp2
      have := ih ps2 (d ++ [p]) hrest (List.pairwise_cons.mp hdist).2 hd2
      exact this.trans (by simp [List.append_assoc])

/-- C10: `convert_env` maps the empty string to the empty dict; a
pipe-separated input whose segments each parse as `KEY=VALUE` (with
distinct keys) yields exactly one entry per pair in order; a pair whose
value contains a further `=` keeps only the segment between the first and
second `=` (the remainder is dropped); and a nonempty input containing no
`=` (and no pipe) makes the parser raise. -/
theorem C10_convert_env :
    (convert_env "" = some []) ∧
    (∀ (envs : String) (ps : List (String × String)),
      envs.data ≠ [] → envs.data.contains '|' = true →
      (splitChar '|' envs.data).map parseVar = ps.map some →
      ps.Pairwise (fun a b => a.1 ≠ b.1) →
      convert_env envs = some ps) ∧
    (∀ k v r : List Char, '=' ∉ k → '=' ∉ v →
      '|' ∉ k → '|' ∉ v → '|' ∉ r →
      convert_env ⟨k ++ '=' :: (v ++ '=' :: r)⟩ = some [(⟨k⟩, ⟨v⟩)]) ∧
    (convert_env "A=b=c" = some [("A", "b")]) ∧
    (∀ envs : String, envs.data ≠ [] → '=' ∉ envs.data → '|' ∉ envs.data →
      convert_env envs = none) := by
  refine ⟨rfl, ?_, ?_, rfl, ?_⟩
  · intro envs ps hne hpipe hparse hdist
    unfold convert_env
    rw [if_neg (by simpa [List.isEmpty_iff] using hne), if_pos hpipe]
    rw [convertFold (splitChar '|' envs.data) ps [] hparse hdist
      (fun p _ q hq => absurd hq (List.not_mem_nil q))]
    simp
  · intro k v r hk hv hpk hpv hpr
    have hdata : (String.mk (k ++ '=' :: (v ++ '=' :: r))).data =
        k ++ '=' :: (v ++ '=' :: r) := rfl
    unfold convert_env
    rw [hdata]
    have hnp : '|' ∉ k ++ '=' :: (v ++ '=' :: r) := by
      intro hmem
      rcases List.mem_append.mp hmem with hmem | hmem
      · exact hpk hmem
      · rcases List.mem_cons.mp hmem with hmem | hmem
        · exact absurd hmem.symm (by decide)
        · rcases List.mem_append.mp hmem with hmem | hmem
          · exact hpv hmem
          · rcases List.mem_cons.mp hmem with hmem | hmem
            · exact absurd hmem.symm (by decide)
            · exact hpr hmem
    rw [if_neg (by simp [List.isEmpty_iff]),
        if_neg (by simpa using hnp)]
    rw [parseVar_dropRest k v r hk hv]
    rfl
  · intro envs hne heq hpipe
    unfold convert_env
    rw [if_neg (by simpa [List.isEmpty_iff] using hne),
        if_neg (by simpa using hpipe)]
    rw [parseVar_noEq envs.data heq]
    rfl

/-- C10 witness: a concrete pipe-separated two-pair input yields its two
entries in order. -/
theorem C10_witness : convert_env "A=B|C=D" = some [("A", "B"), ("C", "D")] :=
  C10_convert_env.2.1 "A=B|C=D" [("A", "B"), ("C", "D")] (by decide) (by decide)
    (by decide) (by decide)
